import Mathlib

/-
Verification of the stratum-api job-orchestrator core.

Shallow embedding of the Go source:
  * `internal/models/connection.go`  (Connection, GenerateConnString)
  * the tenant-scoped job repository (CreateExecution, UpdateExecution,
    SetExecutionComplete, GetExecution, UpdateDefinition, ListExecutionStats, ...)
  * `internal/handlers/job.go` (AutosaveJob, ValidateJobDefinition,
    SetExecutionComplete handler, resolveDefinition, validateResolvedDefinition)
  * `internal/temporal/activities/exec_activities.go` (HandleCompletionActivity)
  * `internal/repository/notification_repository.go` (ListRecent, MarkRead)

Conventions of the embedding:
  * SQL tables are Lean lists of row structures; an UPDATE ... WHERE is a
    `List.map` that rewrites exactly the rows matched by the predicate, and
    the rows-affected count is a `countP` over the same predicate.
  * `NOW()` / `current_date` are explicit `Int` parameters (`now` / `today`);
    timestamps and dates are modelled at the resolution the claims need
    (`created_at::DATE` becomes the `createdDay : Int` field).
  * Nullable text columns that the Go code reads back into plain strings
    (`source_connection_id`, `ast`, `progress_snapshot`) are modelled as
    `String` with `""` standing for SQL NULL, exactly matching the round trip
    through `nullIfEmpty` / `sql.NullString` in the source.  Columns the Go
    code keeps as pointers (`error_message`, `logs`, metrics, timestamps)
    are `Option`.
  * Go errors are the inductive `RepoError`; `isNotFound` mirrors the
    handler helper that matches `sql.ErrNoRows` or a message containing
    "not found".
-/

namespace Stratum

/-- Equality on `Except` is decidable when it is on both components; the
standard library does not provide the instance, so the concrete claim
evaluations below do. -/
def exceptDecEq {ε α : Type} [DecidableEq ε] [DecidableEq α] :
    (a b : Except ε α) → Decidable (a = b)
  | .ok a, .ok b =>
    if h : a = b then .isTrue (congrArg Except.ok h)
    else .isFalse (fun hc => h (Except.ok.inj hc))
  | .error e, .error f =>
    if h : e = f then .isTrue (congrArg Except.error h)
    else .isFalse (fun hc => h (Except.error.inj hc))
  | .ok _, .error _ => .isFalse (fun hc => Except.noConfusion hc)
  | .error _, .ok _ => .isFalse (fun hc => Except.noConfusion hc)

instance {ε α : Type} [DecidableEq ε] [DecidableEq α] : DecidableEq (Except ε α) :=
  exceptDecEq

/-- Go `strings.TrimSpace`, written structurally over the character list so
that the kernel can evaluate it on concrete inputs (the library
`String.trim` is extensionally the same on the ASCII data in play but does
not reduce definitionally). -/
def goTrim (s : String) : String :=
  ⟨((s.data.dropWhile Char.isWhitespace).reverse.dropWhile Char.isWhitespace).reverse⟩

/-- Go `strings.ToUpper`, structurally over the character list. -/
def goToUpper (s : String) : String := ⟨s.data.map Char.toUpper⟩

/-- SQL NULLIF(x, ''): NULL when the string is empty, else the string. -/
def nullif (s : String) : Option String :=
  if s = "" then none else some s

/-- Go helper `nullIfEmpty` (repository): NULL when the trimmed string is
empty.  In the `String`-with-`""`-as-NULL column model this collapses to
trimming. -/
def nullIfEmptyCol (s : String) : String := goTrim s

/-- Model of `models.Connection` (internal/models/connection.go). -/
structure Connection where
  id : String
  tenantID : String
  name : String
  dataFormat : String
  host : String
  port : Int
  username : String
  password : String
  dbName : String
  status : String
  deleted : Bool
deriving Repr, DecidableEq

/-- Embedding of `Connection.GenerateConnString` (internal/models/connection.go):
a switch on `data_format` that interpolates the raw field values into a URL
with no escaping, and an error for every other format. -/
def generateConnString (c : Connection) : Except String String :=
  if c.dataFormat = "pg" ∨ c.dataFormat = "postgresql" ∨ c.dataFormat = "postgres" then
    .ok ("postgres://" ++ c.username ++ ":" ++ c.password ++ "@" ++ c.host ++ ":"
      ++ toString c.port ++ "/" ++ c.dbName)
  else if c.dataFormat = "mysql" then
    .ok ("mysql://" ++ c.username ++ ":" ++ c.password ++ "@" ++ c.host ++ ":"
      ++ toString c.port ++ "/" ++ c.dbName)
  else
    .error ("unknown format: " ++ c.dataFormat)

/-- Go error values reaching the handlers, as the handlers can distinguish
them: `notFound` covers `sql.ErrNoRows` and every message containing
"not found" (the two cases the helper `isNotFound` in handlers/job.go
accepts); the other constructors carry messages that do not. -/
inductive RepoError where
  | notFound (msg : String)
  | notReady (currentStatus : String)
  | invalidStatus (s : String)
deriving Repr, DecidableEq

/-- Embedding of `isNotFound` (handlers/job.go): true exactly for
`sql.ErrNoRows` and errors whose message contains "not found". -/
def isNotFound : RepoError → Bool
  | .notFound _ => true
  | .notReady _ => false
  | .invalidStatus _ => false

/-- Row of `tenant.job_definitions` as the repository reads and writes it. -/
structure JobDefinition where
  id : String
  tenantID : String
  name : String
  description : String
  /-- `ast` column; `""` stands for SQL NULL (`len(def.AST) == 0` in Go). -/
  ast : String
  /-- `source_connection_id`; `""` stands for NULL (`nullIfEmpty`). -/
  sourceConnectionID : String
  destinationConnectionID : String
  status : String
  /-- `progress_snapshot`; `""` stands for NULL. -/
  progressSnapshot : String
  /-- `deleted_at IS NOT NULL` -/
  deleted : Bool
deriving Repr, DecidableEq

/-- Row of `tenant.job_definition_snapshots`. -/
structure DefinitionSnapshot where
  jobDefinitionID : String
  status : String
  snapshot : String
deriving Repr, DecidableEq

/-- Row of `tenant.job_executions`.  `createdDay` is `created_at::DATE`. -/
structure JobExecution where
  id : String
  tenantID : String
  jobDefinitionID : String
  status : String
  createdDay : Int
  updatedAt : Int
  runStartedAt : Option Int
  runCompletedAt : Option Int
  errorMessage : Option String
  logs : Option String
  recordsProcessed : Option Int
  bytesTransferred : Option Int
deriving Repr, DecidableEq

/-- `normalizeDefinitionStatus` (job repository): upper-case the trimmed
status, defaulting the empty string to READY. -/
def normalizeDefinitionStatus (status : String) : String :=
  let trimmed := goToUpper (goTrim status)
  if trimmed = "" then "READY" else trimmed

/-- `validateDefinitionStatus`: the allowed definition statuses. -/
def validateDefinitionStatus (status : String) : Except RepoError Unit :=
  if status = "DRAFT" ∨ status = "VALIDATING" ∨ status = "READY" then .ok ()
  else .error (.invalidStatus status)

/-- The WHERE predicate `id = $1 AND tenant_id = $2 AND deleted_at IS NULL`
used by every tenant-scoped job-definition statement. -/
def defMatches (tenant defID : String) (d : JobDefinition) : Bool :=
  d.id == defID && d.tenantID == tenant && !d.deleted

/-- The WHERE predicate `id = $1 AND tenant_id = $2` used by every
tenant-scoped job-execution statement (executions have no soft delete). -/
def execMatches (tenant execID : String) (e : JobExecution) : Bool :=
  e.id == execID && e.tenantID == tenant

/-- `jobRepository.validateTennantConnection`: an empty (trimmed) id is
accepted; otherwise the connection must exist for the tenant and be
non-deleted, else the error message "connection ... not found for tenant ...". -/
def validateTennantConnection (tenantID connectionID : String)
    (conns : List Connection) : Except RepoError Unit :=
  if goTrim connectionID = "" then .ok ()
  else if conns.any (fun c => c.id == connectionID && c.tenantID == tenantID && !c.deleted) then
    .ok ()
  else
    .error (.notFound ("connection " ++ connectionID ++ " not found for tenant " ++ tenantID))

/-- `jobRepository.getDefinitionStatus`: SELECT status with the tenant-scoped
predicate; `sql.ErrNoRows` when no row matches. -/
def getDefinitionStatus (tenantID jobDefID : String)
    (defs : List JobDefinition) : Except RepoError String :=
  match defs.find? (defMatches tenantID jobDefID) with
  | some d => .ok d.status
  | none => .error (.notFound "sql: no rows in result set")

/-- `jobRepository.GetJobDefinitionByID`: the tenant-scoped lookup, turning
`sql.ErrNoRows` into "job definition not found". -/
def getJobDefinitionByID (tenantID jobDefID : String)
    (defs : List JobDefinition) : Except RepoError JobDefinition :=
  match defs.find? (defMatches tenantID jobDefID) with
  | some d => .ok d
  | none => .error (.notFound "job definition not found")

/-- `jobRepository.GetExecution`: tenant-scoped lookup of one execution,
turning `sql.ErrNoRows` into "execution not found". -/
def getExecution (tenantID execID : String)
    (execs : List JobExecution) : Except RepoError JobExecution :=
  match execs.find? (execMatches tenantID execID) with
  | some e => .ok e
  | none => .error (.notFound "execution not found")

/-- First half of `jobRepository.CreateExecution` (part_017 lines 614-627):
read the definition status in its own statement and refuse with
`ErrJobDefinitionNotReady` unless the normalized status is READY. -/
def createExecutionCheck (tenantID jobDefID : String)
    (defs : List JobDefinition) : Except RepoError String :=
  match getDefinitionStatus tenantID jobDefID defs with
  | .error e => .error e
  | .ok currentStatus =>
    if normalizeDefinitionStatus currentStatus = "READY" then .ok currentStatus
    else .error (.notReady currentStatus)

/-- Second half of `jobRepository.CreateExecution` (lines 628-637): INSERT a
pending row in a separate statement.  Returns the inserted row and the new
table. -/
def createExecutionInsert (tenantID jobDefID executionID : String) (today : Int)
    (execs : List JobExecution) : JobExecution × List JobExecution :=
  let row : JobExecution :=
    { id := executionID, tenantID := tenantID, jobDefinitionID := jobDefID,
      status := "pending", createdDay := today, updatedAt := today,
      runStartedAt := none, runCompletedAt := none, errorMessage := none,
      logs := none, recordsProcessed := none, bytesTransferred := none }
  (row, execs ++ [row])

/-- `jobRepository.CreateExecution`: the check statement followed by the
insert statement.  The two run as separate SQL round trips on `r.db` with no
enclosing transaction; this function is their sequential (uninterleaved)
composition. -/
def createExecution (tenantID jobDefID executionID : String) (today : Int)
    (defs : List JobDefinition) (execs : List JobExecution) :
    Except RepoError (JobExecution × List JobExecution) :=
  match createExecutionCheck tenantID jobDefID defs with
  | .error e => .error e
  | .ok _ => .ok (createExecutionInsert tenantID jobDefID executionID today execs)

/-- `jobRepository.UpdateExecution` (part_017 lines 716-758): a switch on the
requested status.  "running" resets the row (clears message and logs, stamps
`run_started_at`); "succeeded"/"failed" stamp `run_completed_at` and store
NULLIF(message), NULLIF(logs); anything else is the error `invalid status`.
The UPDATE is unconditional over every row matching id and tenant; the
returned number is `RowsAffected`. -/
def updateExecution (tenantID execID status errorMessage logs : String)
    (now : Int) (execs : List JobExecution) :
    Except RepoError (List JobExecution × Nat) :=
  if status = "running" then
    .ok (execs.map (fun e =>
      if execMatches tenantID execID e then
        { e with status := "running", runStartedAt := some now, updatedAt := now,
                 errorMessage := none, logs := none }
      else e),
      execs.countP (execMatches tenantID execID))
  else if status = "succeeded" ∨ status = "failed" then
    .ok (execs.map (fun e =>
      if execMatches tenantID execID e then
        { e with status := status, runCompletedAt := some now, updatedAt := now,
                 errorMessage := nullif errorMessage, logs := nullif logs }
      else e),
      execs.countP (execMatches tenantID execID))
  else
    .error (.invalidStatus status)

/-- `jobRepository.SetExecutionComplete` (part_017 lines 938-946): one
unconditional UPDATE setting status, `run_completed_at`, and both metrics on
every row matching id and tenant.  It never inspects the current status and
never reports how many rows were hit. -/
def setExecutionComplete (tenantID execID status : String)
    (recordsProcessed bytesTransferred : Int) (now : Int)
    (execs : List JobExecution) : List JobExecution :=
  execs.map (fun e =>
    if execMatches tenantID execID e then
      { e with status := status, runCompletedAt := some now,
               recordsProcessed := some recordsProcessed,
               bytesTransferred := some bytesTransferred }
    else e)

/-- `repository.DefinitionUpdate`: the partial field overrides accepted by
`UpdateDefinition`.  `none` = the pointer was nil = no SET clause. -/
structure DefinitionUpdate where
  name : Option String := none
  description : Option String := none
  ast : Option String := none
  sourceConnectionID : Option String := none
  destinationConnectionID : Option String := none
  status : Option String := none
  progressSnapshot : Option String := none
deriving Repr, DecidableEq

/-- Whether `UpdateDefinition` would emit at least one SET clause. -/
def DefinitionUpdate.hasSetClauses (u : DefinitionUpdate) : Bool :=
  u.name.isSome || u.description.isSome || u.ast.isSome ||
  u.sourceConnectionID.isSome || u.destinationConnectionID.isSome ||
  u.status.isSome || u.progressSnapshot.isSome

/-- The SET clause application of `UpdateDefinition` to one matched row.
`statusValue` is the pre-normalized status (only read when `u.status` is
set).  Connection ids go through `nullIfEmpty` of the already-trimmed value;
`ast`/`progress_snapshot` store NULL for empty payloads (here `""`). -/
def applyDefinitionUpdate (u : DefinitionUpdate) (statusValue : String)
    (d : JobDefinition) : JobDefinition :=
  { d with
    name := match u.name with | some n => n | none => d.name,
    description := match u.description with | some s => s | none => d.description,
    ast := match u.ast with | some a => a | none => d.ast,
    sourceConnectionID :=
      match u.sourceConnectionID with
      | some s => nullIfEmptyCol s
      | none => d.sourceConnectionID,
    destinationConnectionID :=
      match u.destinationConnectionID with
      | some s => nullIfEmptyCol s
      | none => d.destinationConnectionID,
    status := match u.status with | some _ => statusValue | none => d.status,
    progressSnapshot := match u.progressSnapshot with | some p => p | none => d.progressSnapshot }

/-- `jobRepository.recordDefinitionSnapshot`: skip empty snapshots, then
normalize and validate the status and append one history row. -/
def recordDefinitionSnapshot (jobDefID status snapshot : String)
    (snaps : List DefinitionSnapshot) : Except RepoError (List DefinitionSnapshot) :=
  if snapshot = "" then .ok snaps
  else
    let st := normalizeDefinitionStatus status
    match validateDefinitionStatus st with
    | .error e => .error e
    | .ok _ => .ok (snaps ++ [{ jobDefinitionID := jobDefID, status := st, snapshot := snapshot }])

/-- Outcome of `UpdateDefinition`: the session state after the statements
that did run, plus the error (if any) the repository returned.  The UPDATE
statement persists even when a later step fails, exactly as in the source
where each statement commits on its own. -/
structure DefUpdateOutcome where
  defs : List JobDefinition
  snaps : List DefinitionSnapshot
  error : Option RepoError
deriving Repr, DecidableEq

/-- Steps of `jobRepository.UpdateDefinition` after the connection and
status checks: build the SET clauses, run the UPDATE (erroring when zero
rows are affected), then record a snapshot when one was supplied. -/
def updateDefinitionChecked (tenantID jobDefID : String) (u : DefinitionUpdate)
    (statusValue : String) (defs : List JobDefinition)
    (snaps : List DefinitionSnapshot) : DefUpdateOutcome :=
  if !u.hasSetClauses then
    { defs := defs, snaps := snaps, error := none }
  else if defs.countP (defMatches tenantID jobDefID) = 0 then
    { defs := defs, snaps := snaps, error := some (.notFound "job definition not found") }
  else
    let defs' := defs.map (fun d =>
      if defMatches tenantID jobDefID d then applyDefinitionUpdate u statusValue d else d)
    match u.progressSnapshot with
    | none => { defs := defs', snaps := snaps, error := none }
    | some snap =>
      if snap = "" then { defs := defs', snaps := snaps, error := none }
      else
        let statusForSnapshot : Except RepoError String :=
          if statusValue = "" then getDefinitionStatus tenantID jobDefID defs'
          else .ok statusValue
        match statusForSnapshot with
        | .error e => { defs := defs', snaps := snaps, error := some e }
        | .ok st =>
          match recordDefinitionSnapshot jobDefID st snap snaps with
          | .error e => { defs := defs', snaps := snaps, error := some e }
          | .ok snaps' => { defs := defs', snaps := snaps', error := none }

/-- Status normalization step of `UpdateDefinition`: `statusValue` stays `""`
when no status override is present, mirroring the Go local variable. -/
def updateDefinitionStatusStep (tenantID jobDefID : String) (u : DefinitionUpdate)
    (defs : List JobDefinition) (snaps : List DefinitionSnapshot) : DefUpdateOutcome :=
  match u.status with
  | some st =>
    let sv := normalizeDefinitionStatus st
    match validateDefinitionStatus sv with
    | .error e => { defs := defs, snaps := snaps, error := some e }
    | .ok _ => updateDefinitionChecked tenantID jobDefID u sv defs snaps
  | none => updateDefinitionChecked tenantID jobDefID u "" defs snaps

/-- `jobRepository.UpdateDefinition` (part_017 lines 500-612): validate the
tenancy of any supplied connection id (on the trimmed value), normalize and
validate any supplied status, then update and snapshot. -/
def updateDefinition (tenantID jobDefID : String) (u : DefinitionUpdate)
    (conns : List Connection) (defs : List JobDefinition)
    (snaps : List DefinitionSnapshot) : DefUpdateOutcome :=
  match u.sourceConnectionID with
  | some s =>
    match validateTennantConnection tenantID (goTrim s) conns with
    | .error e => { defs := defs, snaps := snaps, error := some e }
    | .ok _ =>
      match u.destinationConnectionID with
      | some d =>
        match validateTennantConnection tenantID (goTrim d) conns with
        | .error e => { defs := defs, snaps := snaps, error := some e }
        | .ok _ => updateDefinitionStatusStep tenantID jobDefID u defs snaps
      | none => updateDefinitionStatusStep tenantID jobDefID u defs snaps
  | none =>
    match u.destinationConnectionID with
    | some d =>
      match validateTennantConnection tenantID (goTrim d) conns with
      | .error e => { defs := defs, snaps := snaps, error := some e }
      | .ok _ => updateDefinitionStatusStep tenantID jobDefID u defs snaps
    | none => updateDefinitionStatusStep tenantID jobDefID u defs snaps

/-- One row of the per-day execution matrix (`models.ExecutionStatDay`). -/
structure ExecutionStatDay where
  day : Int
  succeeded : Nat
  failed : Nat
  running : Nat
  pending : Nat
deriving Repr, DecidableEq

/-- `models.ExecutionStat` (success-rate float omitted; the claims do not
touch it). -/
structure ExecutionStat where
  total : Nat
  succeeded : Nat
  failed : Nat
  running : Nat
  perDay : List ExecutionStatDay
  totalDefinitions : Nat
deriving Repr, DecidableEq

/-- Count of the tenant's executions with the given status created on `day`
(the LEFT JOIN `je.created_at::DATE = days.day AND je.tenant_id = $2`
combined with `SUM((je.status = s)::int)`). -/
def countOnDay (tenant : String) (status : String) (day : Int)
    (execs : List JobExecution) : Nat :=
  execs.countP (fun e => e.tenantID == tenant && e.createdDay == day && e.status == status)

/-- `jobRepository.ListExecutionStats` (part_017 lines 833-906): the per-day
matrix built from `generate_series(current_date - (days-1), current_date)`
joined against the tenant's executions, followed by a second, date-unfiltered
count query for the totals and a third for the definition count. -/
def listExecutionStats (tenantID : String) (days : Nat) (today : Int)
    (execs : List JobExecution) (defs : List JobDefinition) : ExecutionStat :=
  let perDay := (List.range days).map (fun (i : Nat) =>
    let d : Int := today - ((days : Int) - 1) + (i : Int)
    { day := d,
      succeeded := countOnDay tenantID "succeeded" d execs,
      failed := countOnDay tenantID "failed" d execs,
      running := countOnDay tenantID "running" d execs,
      pending := countOnDay tenantID "pending" d execs : ExecutionStatDay })
  { total := execs.countP (fun e => e.tenantID == tenantID),
    succeeded := execs.countP (fun e => e.tenantID == tenantID && e.status == "succeeded"),
    failed := execs.countP (fun e => e.tenantID == tenantID && e.status == "failed"),
    running := execs.countP (fun e => e.tenantID == tenantID && e.status == "running"),
    perDay := perDay,
    totalDefinitions := defs.countP (fun d => d.tenantID == tenantID && !d.deleted) }

/-- `handlers.updateDefinitionPayload`: the decoded JSON body of an
autosave/validate request; `none` = field absent. -/
structure UpdatePayload where
  name : Option String := none
  description : Option String := none
  ast : Option String := none
  sourceConnectionID : Option String := none
  destinationConnectionID : Option String := none
  progressSnapshot : Option String := none
  status : Option String := none
deriving Repr, DecidableEq

/-- `updateDefinitionPayload.hasChanges`. -/
def UpdatePayload.hasChanges (p : UpdatePayload) : Bool :=
  p.name.isSome || p.description.isSome || p.ast.isSome ||
  p.sourceConnectionID.isSome || p.destinationConnectionID.isSome ||
  p.progressSnapshot.isSome || p.status.isSome

/-- `handlers.resolvedDefinition`: current persisted values overlaid by the
client's partial update. -/
structure ResolvedDefinition where
  name : String
  description : String
  ast : String
  sourceConnectionID : String
  destinationConnectionID : String
  progressSnapshot : String
deriving Repr, DecidableEq

/-- `handlers.resolveDefinition`: field-wise overlay, trimming the string
fields that go through `defaultTrimmedString`. -/
def resolveDefinition (payload : UpdatePayload) (current : JobDefinition) :
    ResolvedDefinition :=
  { name := goTrim (match payload.name with | some v => v | none => current.name),
    description := match payload.description with | some v => v | none => current.description,
    ast := match payload.ast with | some v => v | none => current.ast,
    sourceConnectionID :=
      goTrim (match payload.sourceConnectionID with | some v => v | none => current.sourceConnectionID),
    destinationConnectionID :=
      goTrim (match payload.destinationConnectionID with | some v => v | none => current.destinationConnectionID),
    progressSnapshot := match payload.progressSnapshot with | some v => v | none => current.progressSnapshot }

/-- `handlers.validateResolvedDefinition`: the collected list of missing
required fields, in source order. -/
def validateResolvedDefinition (d : ResolvedDefinition) : List String :=
  (if goTrim d.name = "" then ["name is required"] else []) ++
  (if d.ast = "" then ["ast is required"] else []) ++
  (if goTrim d.sourceConnectionID = "" then ["source_connection_id is required"] else []) ++
  (if goTrim d.destinationConnectionID = "" then ["destination_connection_id is required"] else [])

/-- The responses the job handlers can produce, at the resolution the claims
need.  `invalid errs` is the 400 `{valid:false, errors}` body, `valid` the
200 `{valid:true}` body, `okJSON` a plain 200, `noContent` the 204. -/
inductive HandlerResponse where
  | okJSON (d : JobDefinition)
  | valid (d : JobDefinition)
  | invalid (errs : List String)
  | badRequest (msg : String)
  | notFoundResp
  | serverError
deriving Repr, DecidableEq

/-- State the definition-side handlers touch. -/
structure DefState where
  defs : List JobDefinition
  snaps : List DefinitionSnapshot
deriving Repr, DecidableEq

/-- Map a repository error to the handler's response the way both
definition handlers do: 404 via `isNotFound`, else 500. -/
def errorResponse (e : RepoError) : HandlerResponse :=
  if isNotFound e then .notFoundResp else .serverError

/-- `JobHandler.AutosaveJob` after the body decoded and the current
definition loaded: build the `DefinitionUpdate` (trimming name and the
connection ids, rejecting an empty name), defaulting the status to DRAFT
when the current definition is READY and the payload carries any field, and
run `UpdateDefinition`. -/
def autosaveApply (tenantID jobDefID : String) (payload : UpdatePayload)
    (currentDef : JobDefinition) (conns : List Connection) (st : DefState) :
    HandlerResponse × DefState :=
  let u : DefinitionUpdate :=
    { name := payload.name.map goTrim,
      description := payload.description,
      ast := payload.ast,
      sourceConnectionID := payload.sourceConnectionID.map goTrim,
      destinationConnectionID := payload.destinationConnectionID.map goTrim,
      progressSnapshot := payload.progressSnapshot,
      status :=
        match payload.status with
        | some s => some (goToUpper (goTrim s))
        | none =>
          if currentDef.status = "READY" && payload.hasChanges then some "DRAFT" else none }
  let outcome := updateDefinition tenantID jobDefID u conns st.defs st.snaps
  match outcome.error with
  | some e => (errorResponse e, { defs := outcome.defs, snaps := outcome.snaps })
  | none =>
    match getJobDefinitionByID tenantID jobDefID outcome.defs with
    | .ok d => (.okJSON d, { defs := outcome.defs, snaps := outcome.snaps })
    | .error e => (errorResponse e, { defs := outcome.defs, snaps := outcome.snaps })

/-- `JobHandler.AutosaveJob` (handlers/job.go lines 189-263), from the point
where the tenant is known and the body decoded. -/
def autosaveJob (tenantID jobDefID : String) (payload : UpdatePayload)
    (conns : List Connection) (st : DefState) : HandlerResponse × DefState :=
  match getJobDefinitionByID tenantID jobDefID st.defs with
  | .error e => (errorResponse e, st)
  | .ok currentDef =>
    match payload.name with
    | some n =>
      if goTrim n = "" then (.badRequest "Name cannot be empty", st)
      else autosaveApply tenantID jobDefID payload currentDef conns st
    | none => autosaveApply tenantID jobDefID payload currentDef conns st

/-- `JobHandler.ValidateJobDefinition` (handlers/job.go lines 265-330), from
the point where the tenant is known and the body decoded: resolve the
fields, collect the missing-field errors (responding `{valid:false}` and
touching nothing when the list is non-empty), else push every resolved field
plus status VALIDATING through `UpdateDefinition`. -/
def validateJobDefinitionHandler (tenantID jobDefID : String)
    (payload : UpdatePayload) (conns : List Connection) (st : DefState) :
    HandlerResponse × DefState :=
  match getJobDefinitionByID tenantID jobDefID st.defs with
  | .error e => (errorResponse e, st)
  | .ok currentDef =>
    let resolved := resolveDefinition payload currentDef
    let errs := validateResolvedDefinition resolved
    if errs ≠ [] then (.invalid errs, st)
    else
      let u : DefinitionUpdate :=
        { name := some resolved.name,
          description := some resolved.description,
          ast := some resolved.ast,
          sourceConnectionID := some (goTrim resolved.sourceConnectionID),
          destinationConnectionID := some (goTrim resolved.destinationConnectionID),
          status := some "VALIDATING",
          progressSnapshot := payload.progressSnapshot }
      let outcome := updateDefinition tenantID jobDefID u conns st.defs st.snaps
      match outcome.error with
      | some e => (errorResponse e, { defs := outcome.defs, snaps := outcome.snaps })
      | none =>
        match getJobDefinitionByID tenantID jobDefID outcome.defs with
        | .ok d => (.valid d, { defs := outcome.defs, snaps := outcome.snaps })
        | .error e => (errorResponse e, { defs := outcome.defs, snaps := outcome.snaps })

/-- `JobHandler.SetExecutionComplete` (handlers/job.go lines 569-628) from
the point where the tenant is known and the body decoded, against a healthy
database: the repository's unconditional UPDATE returns no error (it never
checks rows-affected), the notification block never alters the store or the
response, and the handler ends with 204.  The first component is the HTTP
status code. -/
def setExecutionCompleteHandler (tenantID execID status : String)
    (recordsProcessed bytesTransferred : Int) (now : Int)
    (execs : List JobExecution) : Nat × List JobExecution :=
  (204, setExecutionComplete tenantID execID status recordsProcessed bytesTransferred now execs)

/-- `temporal.RunContainerResult`. -/
structure RunContainerResult where
  exitCode : Int
  logs : String
  tenantID : String
  executionID : String
deriving Repr, DecidableEq

/-- `Activities.HandleCompletionActivity` (exec_activities.go lines 221-249).
`execs` is the execution table as it stands after the 5-second grace sleep;
`now` is the clock at the UPDATE.  Non-zero exit writes status failed with
the exit-code message and the merged logs; otherwise the row is re-read: if
still running it is marked succeeded with the merged logs, else the re-read
status is written back together with the merged logs (the metrics columns
are never touched by `UpdateExecution`). -/
def handleCompletionActivity (result : RunContainerResult) (now : Int)
    (execs : List JobExecution) : Except RepoError (List JobExecution) :=
  if result.exitCode ≠ 0 then
    let msg := "Container exited with non-zero code " ++ toString result.exitCode
    match updateExecution result.tenantID result.executionID "failed" msg result.logs now execs with
    | .error e => .error e
    | .ok (execs', _) => .ok execs'
  else
    match getExecution result.tenantID result.executionID execs with
    | .error e => .error e
    | .ok exec =>
      if exec.status = "running" then
        match updateExecution result.tenantID result.executionID "succeeded" "" result.logs now execs with
        | .error e => .error e
        | .ok (execs', _) => .ok execs'
      else
        match updateExecution result.tenantID result.executionID exec.status "" result.logs now execs with
        | .error e => .error e
        | .ok (execs', _) => .ok execs'

/-- Row of `tenant.notifications`; a `none` tenant is a system-global row. -/
structure Notification where
  id : String
  tenantID : Option String
  eventType : String
  severity : String
  title : String
  message : String
  createdAt : Int
  readAt : Option Int
deriving Repr, DecidableEq

/-- The `LIMIT` actually used by `ListRecent`: out-of-range values fall back
to 25. -/
def effectiveLimit (limit : Int) : Int :=
  if limit ≤ 0 ∨ limit > 100 then 25 else limit

/-- The WHERE predicate of `ListRecent` and `MarkRead`:
`tenant_id IS NULL OR tenant_id = $tenant` (against the trimmed tenant). -/
def notifVisible (tenantID : String) (n : Notification) : Bool :=
  n.tenantID == none || n.tenantID == some (goTrim tenantID)

/-- Insertion step of the `ORDER BY created_at DESC` embedding. -/
def insertByCreatedDesc (n : Notification) : List Notification → List Notification
  | [] => [n]
  | m :: ms =>
    if m.createdAt ≤ n.createdAt then n :: m :: ms
    else m :: insertByCreatedDesc n ms

/-- `ORDER BY created_at DESC` as an insertion sort. -/
def sortByCreatedDesc : List Notification → List Notification
  | [] => []
  | n :: ns => insertByCreatedDesc n (sortByCreatedDesc ns)

/-- `notificationRepository.ListRecent` (notification_repository.go lines
61-92): clamp the limit, filter on NULL-or-matching tenant, order by
`created_at` descending, and cut at the limit. -/
def listRecent (tenantID : String) (limit : Int)
    (notifs : List Notification) : List Notification :=
  (sortByCreatedDesc (notifs.filter (notifVisible tenantID))).take (effectiveLimit limit).toNat

/-- Effect of `notificationRepository.MarkRead` on one row: stamp
`read_at = NOW()` when the id matches and the row is NULL-tenant or owned by
the (trimmed) tenant. -/
def markReadRow (tenantID notificationID : String) (now : Int)
    (n : Notification) : Notification :=
  if n.id == goTrim notificationID && notifVisible tenantID n then
    { n with readAt := some now }
  else n

/-- `notificationRepository.MarkRead` (lines 94-103): the UPDATE over the
whole table. -/
def markRead (tenantID notificationID : String) (now : Int)
    (notifs : List Notification) : List Notification :=
  notifs.map (markReadRow tenantID notificationID now)

/- Helper lemmas shared by the claim theorems. -/

/-- Appending to a non-empty string stays non-empty. -/
theorem append_ne_empty_left (s t : String) (h : s ≠ "") : s ++ t ≠ "" := by
  intro hc
  apply h
  have hd : s.data ++ t.data = [] := by
    have hdata := congrArg String.data hc
    rwa [String.data_append] at hdata
  have hs : s.data = [] := (List.append_eq_nil.mp hd).1
  cases s
  simp_all

/-- Membership through the descending insertion step. -/
theorem mem_insertByCreatedDesc {a n : Notification} :
    ∀ {l : List Notification}, a ∈ insertByCreatedDesc n l ↔ a = n ∨ a ∈ l
  | [] => by simp [insertByCreatedDesc]
  | m :: ms => by
    by_cases h : m.createdAt ≤ n.createdAt
    · simp [insertByCreatedDesc, h]
    · simp only [insertByCreatedDesc, if_neg h, List.mem_cons,
        mem_insertByCreatedDesc]
      tauto

/-- The descending sort keeps exactly the members of the input. -/
theorem mem_sortByCreatedDesc {a : Notification} :
    ∀ {l : List Notification}, a ∈ sortByCreatedDesc l ↔ a ∈ l
  | [] => Iff.rfl
  | n :: ns => by
    simp [sortByCreatedDesc, mem_insertByCreatedDesc, mem_sortByCreatedDesc]

/-- A mapped table is searched the same way when the rewrite does not touch
the fields the WHERE predicate reads. -/
theorem find?_map_congr {α : Type} (f : α → α) (p : α → Bool)
    (hp : ∀ a, p (f a) = p a) :
    ∀ l : List α, (l.map f).find? p = ((l.find? p).map f)
  | [] => rfl
  | a :: l => by
    simp only [List.map_cons, List.find?_cons]
    rw [hp a]
    cases hq : p a
    · simp only [cond_false]
      exact find?_map_congr f p hp l
    · simp

/- Claim theorems. -/

/-- C8: `GenerateConnString` returns exactly
`postgres://{user}:{pwd}@{host}:{port}/{db}` for data formats pg,
postgresql and postgres, exactly `mysql://{user}:{pwd}@{host}:{port}/{db}`
for mysql, interpolating the raw field values with no escaping of reserved
URL characters, and returns an error for every other data format. -/
theorem c8_generateConnString_grammar (c : Connection) :
    ((c.dataFormat = "pg" ∨ c.dataFormat = "postgresql" ∨ c.dataFormat = "postgres") →
      generateConnString c =
        .ok ("postgres://" ++ c.username ++ ":" ++ c.password ++ "@" ++ c.host ++ ":"
          ++ toString c.port ++ "/" ++ c.dbName)) ∧
    (c.dataFormat = "mysql" →
      generateConnString c =
        .ok ("mysql://" ++ c.username ++ ":" ++ c.password ++ "@" ++ c.host ++ ":"
          ++ toString c.port ++ "/" ++ c.dbName)) ∧
    (c.dataFormat ≠ "pg" → c.dataFormat ≠ "postgresql" → c.dataFormat ≠ "postgres" →
      c.dataFormat ≠ "mysql" →
      generateConnString c = .error ("unknown format: " ++ c.dataFormat)) := by
  refine ⟨fun h => ?_, fun h => ?_, fun h1 h2 h3 h4 => ?_⟩
  · simp [generateConnString, h]
  · simp [generateConnString, h]
  · simp [generateConnString, h1, h2, h3, h4]

/-- C8 witness: a concrete postgres connection whose username and password
carry reserved URL characters appearing verbatim in the output. -/
theorem c8_generateConnString_grammar_witness :
    generateConnString
        { id := "c1", tenantID := "t1", name := "conn", dataFormat := "pg",
          host := "db.example", port := 5432, username := "u$er",
          password := "p@:s/wd", dbName := "mydb", status := "valid",
          deleted := false } =
      .ok "postgres://u$er:p@:s/wd@db.example:5432/mydb" := by
  have h := (c8_generateConnString_grammar
    { id := "c1", tenantID := "t1", name := "conn", dataFormat := "pg",
      host := "db.example", port := 5432, username := "u$er",
      password := "p@:s/wd", dbName := "mydb", status := "valid",
      deleted := false }).1 (Or.inl rfl)
  exact h.trans (by decide)

/-- C9 counterexample: applying `MarkRead` a second time at a later clock
does not leave the stored row identical to the result of the first
application; `read_at` is re-stamped from 5 to 9. -/
theorem c9_markRead_not_idempotent :
    markRead "t1" "n1" 9 (markRead "t1" "n1" 5
        [{ id := "n1", tenantID := some "t1", eventType := "execution_succeeded",
           severity := "info", title := "Done", message := "ok", createdAt := 3,
           readAt := none }]) ≠
      markRead "t1" "n1" 5
        [{ id := "n1", tenantID := some "t1", eventType := "execution_succeeded",
           severity := "info", title := "Done", message := "ok", createdAt := 3,
           readAt := none }] := by decide

/-- C9 amended: `MarkRead` stamps `read_at` with the current clock on every
application, so a repeated call re-stamps the timestamp; the table after two
calls equals the table after just the second call (nothing but `read_at`
moves), and a matching row always ends with `read_at` set to the time of
the call. -/
theorem c9_markRead_restamps (tenantID nid : String) (t1 t2 : Int)
    (db : List Notification) :
    markRead tenantID nid t2 (markRead tenantID nid t1 db) =
      markRead tenantID nid t2 db ∧
    ∀ n ∈ db, n.id = goTrim nid →
      (n.tenantID = none ∨ n.tenantID = some (goTrim tenantID)) →
      { n with readAt := some t2 } ∈ markRead tenantID nid t2 db := by
  constructor
  · unfold markRead
    rw [List.map_map]
    apply List.map_congr_left
    intro n _
    by_cases h : (n.id == goTrim nid && notifVisible tenantID n) = true
    · simp only [Function.comp_apply, markReadRow, if_pos h]
      have h' : (n.id == goTrim nid &&
          notifVisible tenantID { n with readAt := some t1 }) = true := by
        simpa [notifVisible] using h
      simp [h', h]
    · simp only [Function.comp_apply, markReadRow, if_neg h]
  · intro n hmem hid htid
    have hrow : markReadRow tenantID nid t2 n = { n with readAt := some t2 } := by
      have hcond : (n.id == goTrim nid && notifVisible tenantID n) = true := by
        rcases htid with h | h <;> simp [notifVisible, hid, h]
      simp [markReadRow, hcond]
    rw [← hrow]
    exact List.mem_map_of_mem _ hmem

/-- C9 amended witness: the concrete global row from the counterexample ends
with `read_at = 9` after the second call. -/
theorem c9_markRead_restamps_witness :
    ({ id := "n1", tenantID := some "t1", eventType := "execution_succeeded",
       severity := "info", title := "Done", message := "ok", createdAt := 3,
       readAt := some 9 } : Notification) ∈
      markRead "t1" "n1" 9
        [{ id := "n1", tenantID := some "t1", eventType := "execution_succeeded",
           severity := "info", title := "Done", message := "ok", createdAt := 3,
           readAt := none }] := by
  have h := (c9_markRead_restamps "t1" "n1" 5 9
    [{ id := "n1", tenantID := some "t1", eventType := "execution_succeeded",
       severity := "info", title := "Done", message := "ok", createdAt := 3,
       readAt := none }]).2
    { id := "n1", tenantID := some "t1", eventType := "execution_succeeded",
      severity := "info", title := "Done", message := "ok", createdAt := 3,
      readAt := none }
    (by simp) (by decide) (Or.inr (by decide))
  simpa using h

/-- C10: `ListRecent` only ever returns rows whose tenant is NULL or the
(trimmed) requesting tenant, a NULL-tenant (system-global) row can have its
`read_at` set by `MarkRead` under any tenant, and a limit outside 1..100 is
replaced by 25. -/
theorem c10_notifications_visibility :
    (∀ (tenantID : String) (limit : Int) (db : List Notification)
        (n : Notification), n ∈ listRecent tenantID limit db →
      n.tenantID = none ∨ n.tenantID = some (goTrim tenantID)) ∧
    (∀ (tenantID nid : String) (now : Int) (db : List Notification)
        (n : Notification), n ∈ db → n.tenantID = none → n.id = goTrim nid →
      { n with readAt := some now } ∈ markRead tenantID nid now db) ∧
    (∀ limit : Int, limit < 1 ∨ limit > 100 → effectiveLimit limit = 25) := by
  refine ⟨?_, ?_, ?_⟩
  · intro tenantID limit db n hmem
    have h1 : n ∈ sortByCreatedDesc (db.filter (notifVisible tenantID)) :=
      List.take_subset _ _ hmem
    have h2 : n ∈ db.filter (notifVisible tenantID) :=
      mem_sortByCreatedDesc.mp h1
    have h3 := (List.mem_filter.mp h2).2
    simpa [notifVisible] using h3
  · intro tenantID nid now db n hmem hnone hid
    have hrow : markReadRow tenantID nid now n = { n with readAt := some now } := by
      simp [markReadRow, notifVisible, hid, hnone]
    rw [← hrow]
    exact List.mem_map_of_mem _ hmem
  · intro limit h
    rcases h with h | h <;> simp [effectiveLimit] <;> omega

/-- C10 witness: both out-of-range limits fall back to 25, and a concrete
NULL-tenant notification is marked read under an unrelated tenant. -/
theorem c10_notifications_visibility_witness :
    effectiveLimit 0 = 25 ∧ effectiveLimit 101 = 25 ∧
    ({ id := "g1", tenantID := none, eventType := "system", severity := "info",
       title := "G", message := "m", createdAt := 2, readAt := some 4 } : Notification) ∈
      markRead "other-tenant" "g1" 4
        [{ id := "g1", tenantID := none, eventType := "system", severity := "info",
           title := "G", message := "m", createdAt := 2, readAt := none }] := by
  refine ⟨c10_notifications_visibility.2.2 0 (Or.inl (by omega)),
          c10_notifications_visibility.2.2 101 (Or.inr (by omega)), ?_⟩
  have h := c10_notifications_visibility.2.1 "other-tenant" "g1" 4
    [{ id := "g1", tenantID := none, eventType := "system", severity := "info",
       title := "G", message := "m", createdAt := 2, readAt := none }]
    { id := "g1", tenantID := none, eventType := "system", severity := "info",
      title := "G", message := "m", createdAt := 2, readAt := none }
    (by simp) rfl (by decide)
  simpa using h

/-- C1 counterexample: `UpdateExecution` moves a concrete terminal
(succeeded) execution back to running, so a terminal status is not
write-once and the observed status sequence is not a prefix of
pending, running, (succeeded|failed). -/
theorem c1_terminal_status_overwritten :
    updateExecution "t1" "e1" "running" "" "" 7
        [{ id := "e1", tenantID := "t1", jobDefinitionID := "d1", status := "succeeded",
           createdDay := 1, updatedAt := 2, runStartedAt := some 1, runCompletedAt := some 2,
           errorMessage := none, logs := some "done", recordsProcessed := some 10,
           bytesTransferred := some 20 }] =
      .ok ([{ id := "e1", tenantID := "t1", jobDefinitionID := "d1", status := "running",
              createdDay := 1, updatedAt := 7, runStartedAt := some 7, runCompletedAt := some 2,
              errorMessage := none, logs := none, recordsProcessed := some 10,
              bytesTransferred := some 20 }], 1) ∧
    ("running" : String) ≠ "succeeded" := by decide

/-- C1 amended: the store enforces no status-transition guard at all.  For
any execution row matching id and tenant, whatever its current status
(terminal included), `UpdateExecution` with any of its three accepted
statuses rewrites the stored status to the requested one, and
`SetExecutionComplete` rewrites it to any string whatever while stamping
`run_completed_at` and both metrics. -/
theorem c1_store_no_transition_guard (tenantID execID : String) (now : Int)
    (db : List JobExecution) (r : JobExecution) (hmem : r ∈ db)
    (hid : r.id = execID) (ht : r.tenantID = tenantID) :
    (∀ s msg lg, s = "running" ∨ s = "succeeded" ∨ s = "failed" →
      ∃ db' k, updateExecution tenantID execID s msg lg now db = .ok (db', k) ∧
        ∃ r' ∈ db', r'.status = s) ∧
    (∀ s records bytes,
      ∃ r' ∈ setExecutionComplete tenantID execID s records bytes now db,
        r'.status = s ∧ r'.recordsProcessed = some records ∧
        r'.bytesTransferred = some bytes ∧ r'.runCompletedAt = some now) := by
  have hmatch : execMatches tenantID execID r = true := by
    simp [execMatches, hid, ht]
  constructor
  · rintro s msg lg (rfl | rfl | rfl)
    · refine ⟨_, _, rfl, _, List.mem_map_of_mem _ hmem, ?_⟩
      simp [hmatch]
    · refine ⟨_, _, rfl, _, List.mem_map_of_mem _ hmem, ?_⟩
      simp [hmatch]
    · refine ⟨_, _, rfl, _, List.mem_map_of_mem _ hmem, ?_⟩
      simp [hmatch]
  · intro s records bytes
    refine ⟨_, List.mem_map_of_mem _ hmem, ?_⟩
    simp [hmatch, setExecutionComplete]

/-- C1 amended witness: the guardless overwrite exercised on a concrete
terminal row. -/
theorem c1_store_no_transition_guard_witness :
    ∃ db' k, updateExecution "t1" "e9" "running" "" "" 7
        [{ id := "e9", tenantID := "t1", jobDefinitionID := "d1", status := "failed",
           createdDay := 1, updatedAt := 2, runStartedAt := some 1, runCompletedAt := some 2,
           errorMessage := some "boom", logs := none, recordsProcessed := none,
           bytesTransferred := none }] = .ok (db', k) ∧
      ∃ r' ∈ db', r'.status = "running" :=
  (c1_store_no_transition_guard "t1" "e9" 7 _
    { id := "e9", tenantID := "t1", jobDefinitionID := "d1", status := "failed",
      createdDay := 1, updatedAt := 2, runStartedAt := some 1, runCompletedAt := some 2,
      errorMessage := some "boom", logs := none, recordsProcessed := none,
      bytesTransferred := none }
    (by simp) rfl rfl).1 "running" "" "" (Or.inl rfl)

/-- C2 counterexample: with no execution row at all (the id does not exist
for the tenant) the completion endpoint still answers 204, not the 404 the
claim requires; the repository's unconditional UPDATE affects zero rows and
returns no error. -/
theorem c2_unknown_execution_gets_204 :
    setExecutionCompleteHandler "t1" "missing" "succeeded" 1000 12345 5 [] = (204, []) ∧
    (204 : Nat) ≠ 404 := by decide

/-- C2 amended: once the body decodes (and absent a database failure) the
completion endpoint always answers 204 — it never produces 404 for an
unknown execution nor 409 for a terminal row with a different status — and
the store side is the unconditional overwrite of status, run_completed_at
and both metrics on every matching row, terminal rows included. -/
theorem c2_callback_handler_semantics (tenantID execID status : String)
    (records bytes now : Int) (db : List JobExecution) :
    (setExecutionCompleteHandler tenantID execID status records bytes now db).1 = 204 ∧
    (setExecutionCompleteHandler tenantID execID status records bytes now db).1 ≠ 404 ∧
    (setExecutionCompleteHandler tenantID execID status records bytes now db).1 ≠ 409 ∧
    (setExecutionCompleteHandler tenantID execID status records bytes now db).2 =
      setExecutionComplete tenantID execID status records bytes now db ∧
    ∀ r ∈ db, r.id = execID → r.tenantID = tenantID →
      { r with status := status, runCompletedAt := some now,
               recordsProcessed := some records, bytesTransferred := some bytes } ∈
        (setExecutionCompleteHandler tenantID execID status records bytes now db).2 := by
  refine ⟨rfl, by simp [setExecutionCompleteHandler],
    by simp [setExecutionCompleteHandler], rfl, ?_⟩
  intro r hmem hid ht
  have hmatch : execMatches tenantID execID r = true := by
    simp [execMatches, hid, ht]
  exact List.mem_map.mpr ⟨r, hmem, by simp [hmatch]⟩

/-- C2 amended witness: a concrete already-succeeded row is silently
overwritten to failed and the endpoint still answers 204. -/
theorem c2_callback_handler_semantics_witness :
    ({ id := "e1", tenantID := "t1", jobDefinitionID := "d1", status := "failed",
       createdDay := 1, updatedAt := 2, runStartedAt := some 1, runCompletedAt := some 9,
       errorMessage := none, logs := some "done", recordsProcessed := some 3,
       bytesTransferred := some 4 } : JobExecution) ∈
      (setExecutionCompleteHandler "t1" "e1" "failed" 3 4 9
        [{ id := "e1", tenantID := "t1", jobDefinitionID := "d1", status := "succeeded",
           createdDay := 1, updatedAt := 2, runStartedAt := some 1, runCompletedAt := some 2,
           errorMessage := none, logs := some "done", recordsProcessed := some 10,
           bytesTransferred := some 20 }]).2 := by
  have h := (c2_callback_handler_semantics "t1" "e1" "failed" 3 4 9
    [{ id := "e1", tenantID := "t1", jobDefinitionID := "d1", status := "succeeded",
       createdDay := 1, updatedAt := 2, runStartedAt := some 1, runCompletedAt := some 2,
       errorMessage := none, logs := some "done", recordsProcessed := some 10,
       bytesTransferred := some 20 }]).2.2.2.2
    { id := "e1", tenantID := "t1", jobDefinitionID := "d1", status := "succeeded",
      createdDay := 1, updatedAt := 2, runStartedAt := some 1, runCompletedAt := some 2,
      errorMessage := none, logs := some "done", recordsProcessed := some 10,
      bytesTransferred := some 20 }
    (by simp) rfl rfl
  simpa using h

/-- C3 counterexample: the READY check and the insert of `CreateExecution`
are two separate statements with no transaction.  Interleaving a definition
update between them (as a concurrent caller may) leaves the definition in
DRAFT while the insert still lands, so the check and the insert do not form
one atomic unit. -/
theorem c3_check_insert_not_atomic :
    createExecutionCheck "t1" "d1"
        [{ id := "d1", tenantID := "t1", name := "daily_sync", description := "",
           ast := "{}", sourceConnectionID := "c1", destinationConnectionID := "c2",
           status := "READY", progressSnapshot := "", deleted := false }] = .ok "READY" ∧
    updateDefinition "t1" "d1" { status := some "DRAFT" } []
        [{ id := "d1", tenantID := "t1", name := "daily_sync", description := "",
           ast := "{}", sourceConnectionID := "c1", destinationConnectionID := "c2",
           status := "READY", progressSnapshot := "", deleted := false }] [] =
      { defs := [{ id := "d1", tenantID := "t1", name := "daily_sync", description := "",
                   ast := "{}", sourceConnectionID := "c1", destinationConnectionID := "c2",
                   status := "DRAFT", progressSnapshot := "", deleted := false }],
        snaps := [], error := none } ∧
    (createExecutionInsert "t1" "d1" "e1" 3 []).2 =
      [{ id := "e1", tenantID := "t1", jobDefinitionID := "d1", status := "pending",
         createdDay := 3, updatedAt := 3, runStartedAt := none, runCompletedAt := none,
         errorMessage := none, logs := none, recordsProcessed := none,
         bytesTransferred := none }] ∧
    getDefinitionStatus "t1" "d1"
        [{ id := "d1", tenantID := "t1", name := "daily_sync", description := "",
           ast := "{}", sourceConnectionID := "c1", destinationConnectionID := "c2",
           status := "DRAFT", progressSnapshot := "", deleted := false }] = .ok "DRAFT" ∧
    ("DRAFT" : String) ≠ "READY" := by decide

/-- C3 amended: the sequential behaviour of `CreateExecution` is as claimed
— a NotReady error and no insert when the (normalized) status read by the
check statement is not READY, otherwise exactly one pending row appended —
but the check and the insert are two separate statements, not one atomic
unit. -/
theorem c3_createExecution_spec (tenantID jobDefID executionID : String)
    (today : Int) (defs : List JobDefinition) (execs : List JobExecution) :
    (∀ st, getDefinitionStatus tenantID jobDefID defs = .ok st →
      normalizeDefinitionStatus st ≠ "READY" →
      createExecution tenantID jobDefID executionID today defs execs =
        .error (.notReady st)) ∧
    (∀ st, getDefinitionStatus tenantID jobDefID defs = .ok st →
      normalizeDefinitionStatus st = "READY" →
      createExecution tenantID jobDefID executionID today defs execs =
        .ok (createExecutionInsert tenantID jobDefID executionID today execs) ∧
      (createExecutionInsert tenantID jobDefID executionID today execs).1.status = "pending" ∧
      (createExecutionInsert tenantID jobDefID executionID today execs).2 =
        execs ++ [(createExecutionInsert tenantID jobDefID executionID today execs).1]) ∧
    (∀ e, getDefinitionStatus tenantID jobDefID defs = .error e →
      createExecution tenantID jobDefID executionID today defs execs = .error e) := by
  refine ⟨fun st h1 h2 => ?_, fun st h1 h2 => ⟨?_, rfl, rfl⟩, fun e h1 => ?_⟩
  · simp [createExecution, createExecutionCheck, h1, h2]
  · simp [createExecution, createExecutionCheck, h1, h2]
  · simp [createExecution, createExecutionCheck, h1]

/-- C3 amended witness: a DRAFT definition makes the sequential
`CreateExecution` fail with NotReady and insert nothing. -/
theorem c3_createExecution_spec_witness :
    createExecution "t1" "d1" "e1" 3
        [{ id := "d1", tenantID := "t1", name := "daily_sync", description := "",
           ast := "{}", sourceConnectionID := "c1", destinationConnectionID := "c2",
           status := "DRAFT", progressSnapshot := "", deleted := false }] [] =
      .error (.notReady "DRAFT") :=
  (c3_createExecution_spec "t1" "d1" "e1" 3 _ []).1 "DRAFT" (by decide) (by decide)

/-- C4 counterexample: in the reconcile step with exit code zero and a row
the callback already completed (status succeeded at time 5), the final
update writes more than the logs — `run_completed_at` is re-stamped from 5
to the reconcile clock 9 (and `updated_at` moves with it), so "only the
logs are written" fails on this input. -/
theorem c4_reconcile_restamps_completion_time :
    handleCompletionActivity
        { exitCode := 0, logs := "container output", tenantID := "t1",
          executionID := "e1" } 9
        [{ id := "e1", tenantID := "t1", jobDefinitionID := "d1", status := "succeeded",
           createdDay := 1, updatedAt := 5, runStartedAt := some 1, runCompletedAt := some 5,
           errorMessage := none, logs := none, recordsProcessed := some 1000,
           bytesTransferred := some 12345 }] =
      .ok [{ id := "e1", tenantID := "t1", jobDefinitionID := "d1", status := "succeeded",
             createdDay := 1, updatedAt := 9, runStartedAt := some 1, runCompletedAt := some 9,
             errorMessage := none, logs := some "container output",
             recordsProcessed := some 1000, bytesTransferred := some 12345 }] ∧
    some (9 : Int) ≠ some (5 : Int) := by decide

/-- C4 amended: the reconcile branches behave as claimed — non-zero exit
writes status failed with the exit-code message and the merged logs; exit
zero with the re-read row still running writes status succeeded with the
merged logs leaving the metrics columns untouched; otherwise the re-read
terminal status and the metrics are preserved and the merged logs are
written — except that the final update also re-stamps `run_completed_at`
and `updated_at` and clears `error_message` rather than writing only the
logs. -/
theorem c4_handleCompletion_branches (result : RunContainerResult) (now : Int)
    (execs : List JobExecution) (hlogs : result.logs ≠ "") :
    (result.exitCode ≠ 0 →
      handleCompletionActivity result now execs = .ok (execs.map (fun e =>
        if execMatches result.tenantID result.executionID e then
          { e with status := "failed", runCompletedAt := some now, updatedAt := now,
                   errorMessage := some ("Container exited with non-zero code " ++
                     toString result.exitCode),
                   logs := some result.logs }
        else e))) ∧
    (∀ exec, result.exitCode = 0 →
      getExecution result.tenantID result.executionID execs = .ok exec →
      exec.status = "running" →
      handleCompletionActivity result now execs = .ok (execs.map (fun e =>
        if execMatches result.tenantID result.executionID e then
          { e with status := "succeeded", runCompletedAt := some now, updatedAt := now,
                   errorMessage := none, logs := some result.logs }
        else e))) ∧
    (∀ exec, result.exitCode = 0 →
      getExecution result.tenantID result.executionID execs = .ok exec →
      exec.status = "succeeded" ∨ exec.status = "failed" →
      handleCompletionActivity result now execs = .ok (execs.map (fun e =>
        if execMatches result.tenantID result.executionID e then
          { e with status := exec.status, runCompletedAt := some now, updatedAt := now,
                   errorMessage := none, logs := some result.logs }
        else e))) := by
  have hnl : nullif result.logs = some result.logs := by simp [nullif, hlogs]
  have hne : nullif "" = (none : Option String) := rfl
  refine ⟨fun hexit => ?_, fun exec h0 hget hrun => ?_, fun exec h0 hget hterm => ?_⟩
  · have hmsg : nullif ("Container exited with non-zero code " ++
        toString result.exitCode) =
        some ("Container exited with non-zero code " ++ toString result.exitCode) := by
      simp [nullif,
        append_ne_empty_left "Container exited with non-zero code " _ (by decide)]
    simp [handleCompletionActivity, hexit, updateExecution, hmsg, hnl]
  · simp [handleCompletionActivity, h0, hget, hrun, updateExecution, hnl, hne]
  · rcases hterm with h | h <;>
      simp [handleCompletionActivity, h0, hget, h, updateExecution, hnl, hne]

/-- C4 amended witness: the callback-missed-window branch on a concrete
running row: exit zero, logs boom, status becomes succeeded and the metrics
stay NULL. -/
theorem c4_handleCompletion_branches_witness :
    handleCompletionActivity
        { exitCode := 0, logs := "boom", tenantID := "t1", executionID := "e1" } 9
        [{ id := "e1", tenantID := "t1", jobDefinitionID := "d1", status := "running",
           createdDay := 1, updatedAt := 2, runStartedAt := some 1, runCompletedAt := none,
           errorMessage := none, logs := none, recordsProcessed := none,
           bytesTransferred := none }] =
      .ok [{ id := "e1", tenantID := "t1", jobDefinitionID := "d1", status := "succeeded",
             createdDay := 1, updatedAt := 9, runStartedAt := some 1, runCompletedAt := some 9,
             errorMessage := none, logs := some "boom", recordsProcessed := none,
             bytesTransferred := none }] := by
  have h := (c4_handleCompletion_branches
    { exitCode := 0, logs := "boom", tenantID := "t1", executionID := "e1" } 9
    [{ id := "e1", tenantID := "t1", jobDefinitionID := "d1", status := "running",
       createdDay := 1, updatedAt := 2, runStartedAt := some 1, runCompletedAt := none,
       errorMessage := none, logs := none, recordsProcessed := none,
       bytesTransferred := none }] (by decide)).2.1
    { id := "e1", tenantID := "t1", jobDefinitionID := "d1", status := "running",
      createdDay := 1, updatedAt := 2, runStartedAt := some 1, runCompletedAt := none,
      errorMessage := none, logs := none, recordsProcessed := none,
      bytesTransferred := none }
    rfl (by decide) rfl
  exact h.trans (by decide)

/-- C5: for every tenant and window of at least one day, the per-day matrix
has exactly `days` rows in strictly ascending day order, its first (hence
earliest) row is `today - (days - 1)`, a day on which the tenant has no
executions is zero-filled, and the aggregate totals are counts over the
tenant's executions with no date condition at all. -/
theorem c5_listExecutionStats_shape (tenantID : String) (days : Nat) (today : Int)
    (execs : List JobExecution) (defs : List JobDefinition) (hdays : 1 ≤ days) :
    (listExecutionStats tenantID days today execs defs).perDay.length = days ∧
    ((listExecutionStats tenantID days today execs defs).perDay.head?).map
      ExecutionStatDay.day = some (today - ((days : Int) - 1)) ∧
    (listExecutionStats tenantID days today execs defs).perDay.Pairwise
      (fun a b => a.day < b.day) ∧
    (∀ r ∈ (listExecutionStats tenantID days today execs defs).perDay,
      (∀ e ∈ execs, e.tenantID = tenantID → e.createdDay ≠ r.day) →
      r.succeeded = 0 ∧ r.failed = 0 ∧ r.running = 0 ∧ r.pending = 0) ∧
    (listExecutionStats tenantID days today execs defs).total =
      execs.countP (fun e => e.tenantID == tenantID) ∧
    (listExecutionStats tenantID days today execs defs).succeeded =
      execs.countP (fun e => e.tenantID == tenantID && e.status == "succeeded") ∧
    (listExecutionStats tenantID days today execs defs).failed =
      execs.countP (fun e => e.tenantID == tenantID && e.status == "failed") ∧
    (listExecutionStats tenantID days today execs defs).running =
      execs.countP (fun e => e.tenantID == tenantID && e.status == "running") := by
  refine ⟨?_, ?_, ?_, ?_, rfl, rfl, rfl, rfl⟩
  · simp only [listExecutionStats]
    rw [List.length_map, List.length_range]
  · obtain ⟨n, rfl⟩ : ∃ n, days = n + 1 :=
      ⟨days - 1, (Nat.succ_pred_eq_of_pos hdays).symm⟩
    simp only [listExecutionStats, List.range_succ_eq_map, List.map_cons,
      List.head?_cons, Option.map_some']
    congr 1
    push_cast
    ring
  · simp only [listExecutionStats]
    rw [List.pairwise_map]
    refine (List.pairwise_lt_range days).imp ?_
    intro i j hij
    simp only
    omega
  · intro r hr hnone
    simp only [listExecutionStats, List.mem_map, List.mem_range] at hr
    obtain ⟨i, _, rfl⟩ := hr
    refine ⟨?_, ?_, ?_, ?_⟩ <;>
    · apply List.countP_eq_zero.mpr
      intro e he
      simp only [Bool.and_eq_true, beq_iff_eq]
      rintro ⟨⟨htid, hday⟩, -⟩
      exact absurd hday (hnone e he htid)

/-- C5 witness: a two-day window over a small concrete table. -/
theorem c5_listExecutionStats_shape_witness :
    (listExecutionStats "t1" 2 10
        [{ id := "e1", tenantID := "t1", jobDefinitionID := "d1", status := "succeeded",
           createdDay := 10, updatedAt := 10, runStartedAt := some 10,
           runCompletedAt := some 10, errorMessage := none, logs := none,
           recordsProcessed := some 5, bytesTransferred := some 6 },
         { id := "e2", tenantID := "t2", jobDefinitionID := "d2", status := "failed",
           createdDay := 9, updatedAt := 9, runStartedAt := some 9,
           runCompletedAt := some 9, errorMessage := some "x", logs := none,
           recordsProcessed := none, bytesTransferred := none }] []).perDay.length = 2 :=
  (c5_listExecutionStats_shape "t1" 2 10
    [{ id := "e1", tenantID := "t1", jobDefinitionID := "d1", status := "succeeded",
       createdDay := 10, updatedAt := 10, runStartedAt := some 10,
       runCompletedAt := some 10, errorMessage := none, logs := none,
       recordsProcessed := some 5, bytesTransferred := some 6 },
     { id := "e2", tenantID := "t2", jobDefinitionID := "d2", status := "failed",
       createdDay := 9, updatedAt := 9, runStartedAt := some 9,
       runCompletedAt := some 9, errorMessage := some "x", logs := none,
       recordsProcessed := none, bytesTransferred := none }] [] (by omega)).1

/-- Unfolding of the tenant-scoped definition lookup. -/
theorem getJobDefinitionByID_ok_iff (tenantID jobDefID : String)
    (defs : List JobDefinition) (d : JobDefinition) :
    getJobDefinitionByID tenantID jobDefID defs = .ok d ↔
      defs.find? (defMatches tenantID jobDefID) = some d := by
  unfold getJobDefinitionByID
  cases h : defs.find? (defMatches tenantID jobDefID) <;> simp

/-- Reading the status of a found definition. -/
theorem getDefinitionStatus_eq (tenantID jobDefID : String)
    (defs : List JobDefinition) (d : JobDefinition)
    (hfind : defs.find? (defMatches tenantID jobDefID) = some d) :
    getDefinitionStatus tenantID jobDefID defs = .ok d.status := by
  unfold getDefinitionStatus
  rw [hfind]

/-- The SET clauses do not touch the fields the WHERE predicate reads. -/
theorem defMatches_applyDefinitionUpdate (tenantID jobDefID : String)
    (u : DefinitionUpdate) (sv : String) (d : JobDefinition) :
    defMatches tenantID jobDefID (applyDefinitionUpdate u sv d) =
      defMatches tenantID jobDefID d := by
  simp [defMatches, applyDefinitionUpdate]

/-- A found row makes the rows-affected count positive. -/
theorem countP_defMatches_pos (tenantID jobDefID : String)
    (defs : List JobDefinition) (d : JobDefinition)
    (hfind : defs.find? (defMatches tenantID jobDefID) = some d) :
    ¬ defs.countP (defMatches tenantID jobDefID) = 0 := by
  have hmem := List.mem_of_find?_eq_some hfind
  have hp := List.find?_some hfind
  have hpos := List.countP_pos_iff.mpr ⟨d, hmem, hp⟩
  omega

/-- After the UPDATE, the lookup finds the rewritten version of the row it
found before. -/
theorem find?_after_update (tenantID jobDefID : String) (u : DefinitionUpdate)
    (sv : String) (defs : List JobDefinition) (d : JobDefinition)
    (hfind : defs.find? (defMatches tenantID jobDefID) = some d) :
    (defs.map (fun x => if defMatches tenantID jobDefID x then
        applyDefinitionUpdate u sv x else x)).find? (defMatches tenantID jobDefID) =
      some (applyDefinitionUpdate u sv d) := by
  rw [find?_map_congr]
  · rw [hfind, Option.map_some']
    rw [if_pos (List.find?_some hfind)]
  · intro a
    by_cases h : defMatches tenantID jobDefID a = true
    · rw [if_pos h, defMatches_applyDefinitionUpdate, h]
    · rw [if_neg h]

/-- Success path of `UpdateDefinition` when a status override is supplied:
with a found row, at least one SET clause, valid tenancy of any supplied
connection ids and a well-formed non-empty status value, no error is
produced and the found row ends as the SET-applied row. -/
theorem updateDefinition_status_some (tenantID jobDefID : String)
    (u : DefinitionUpdate) (conns : List Connection)
    (defs : List JobDefinition) (snaps : List DefinitionSnapshot)
    (currentDef : JobDefinition) (stv : String)
    (hfind : defs.find? (defMatches tenantID jobDefID) = some currentDef)
    (hst : u.status = some stv)
    (hnorm : normalizeDefinitionStatus stv = stv)
    (hvalid : validateDefinitionStatus stv = .ok ())
    (hne : stv ≠ "")
    (hset : u.hasSetClauses = true)
    (hsrc : ∀ s, u.sourceConnectionID = some s →
      validateTennantConnection tenantID (goTrim s) conns = .ok ())
    (hdst : ∀ s, u.destinationConnectionID = some s →
      validateTennantConnection tenantID (goTrim s) conns = .ok ()) :
    (updateDefinition tenantID jobDefID u conns defs snaps).error = none ∧
    (updateDefinition tenantID jobDefID u conns defs snaps).defs.find?
      (defMatches tenantID jobDefID) = some (applyDefinitionUpdate u stv currentDef) := by
  have hcnt := countP_defMatches_pos tenantID jobDefID defs currentDef hfind
  have hfind' := find?_after_update tenantID jobDefID u stv defs currentDef hfind
  have hchecked : ∃ snaps',
      updateDefinitionChecked tenantID jobDefID u stv defs snaps =
        { defs := defs.map (fun x => if defMatches tenantID jobDefID x then
            applyDefinitionUpdate u stv x else x),
          snaps := snaps', error := none } := by
    unfold updateDefinitionChecked
    rw [hset]
    simp only [Bool.not_true, Bool.false_eq_true, if_false]
    rw [if_neg hcnt]
    rcases hps : u.progressSnapshot with _ | snap
    · exact ⟨snaps, rfl⟩
    · by_cases hse : snap = ""
      · refine ⟨snaps, ?_⟩
        dsimp only
        rw [if_pos hse]
      · refine ⟨snaps ++ [{ jobDefinitionID := jobDefID, status := stv, snapshot := snap }], ?_⟩
        dsimp only
        rw [if_neg hse, if_neg hne]
        simp [recordDefinitionSnapshot, hse, hnorm, hvalid]
  have hstep :
      updateDefinitionStatusStep tenantID jobDefID u defs snaps =
        updateDefinitionChecked tenantID jobDefID u stv defs snaps := by
    unfold updateDefinitionStatusStep
    rw [hst]
    simp only [hnorm, hvalid]
  have hud :
      updateDefinition tenantID jobDefID u conns defs snaps =
        updateDefinitionStatusStep tenantID jobDefID u defs snaps := by
    unfold updateDefinition
    rcases hs : u.sourceConnectionID with _ | s
    · rcases hd : u.destinationConnectionID with _ | d2
      · rfl
      · dsimp only
        rw [hdst d2 hd]
    · dsimp only
      rw [hsrc s hs]
      rcases hd : u.destinationConnectionID with _ | d2
      · rfl
      · dsimp only
        rw [hdst d2 hd]
  obtain ⟨snaps', heq⟩ := hchecked
  rw [hud, hstep, heq]
  exact ⟨rfl, hfind'⟩

/-- Success path of `UpdateDefinition` with no status override: the status
column is untouched and, provided the current status normalizes to a valid
one (needed only for the snapshot insert), no error is produced. -/
theorem updateDefinition_status_none (tenantID jobDefID : String)
    (u : DefinitionUpdate) (conns : List Connection)
    (defs : List JobDefinition) (snaps : List DefinitionSnapshot)
    (currentDef : JobDefinition)
    (hfind : defs.find? (defMatches tenantID jobDefID) = some currentDef)
    (hst : u.status = none)
    (hcurv : validateDefinitionStatus
      (normalizeDefinitionStatus currentDef.status) = .ok ())
    (hset : u.hasSetClauses = true)
    (hsrc : ∀ s, u.sourceConnectionID = some s →
      validateTennantConnection tenantID (goTrim s) conns = .ok ())
    (hdst : ∀ s, u.destinationConnectionID = some s →
      validateTennantConnection tenantID (goTrim s) conns = .ok ()) :
    (updateDefinition tenantID jobDefID u conns defs snaps).error = none ∧
    (updateDefinition tenantID jobDefID u conns defs snaps).defs.find?
      (defMatches tenantID jobDefID) = some (applyDefinitionUpdate u "" currentDef) := by
  have hcnt := countP_defMatches_pos tenantID jobDefID defs currentDef hfind
  have hfind' := find?_after_update tenantID jobDefID u "" defs currentDef hfind
  have happst : (applyDefinitionUpdate u "" currentDef).status = currentDef.status := by
    simp [applyDefinitionUpdate, hst]
  have hchecked : ∃ snaps',
      updateDefinitionChecked tenantID jobDefID u "" defs snaps =
        { defs := defs.map (fun x => if defMatches tenantID jobDefID x then
            applyDefinitionUpdate u "" x else x),
          snaps := snaps', error := none } := by
    unfold updateDefinitionChecked
    rw [hset]
    simp only [Bool.not_true, Bool.false_eq_true, if_false]
    rw [if_neg hcnt]
    rcases hps : u.progressSnapshot with _ | snap
    · exact ⟨snaps, rfl⟩
    · by_cases hse : snap = ""
      · refine ⟨snaps, ?_⟩
        dsimp only
        rw [if_pos hse]
      · refine ⟨snaps ++ [{ jobDefinitionID := jobDefID,
                            status := normalizeDefinitionStatus currentDef.status,
                            snapshot := snap }], ?_⟩
        dsimp only
        rw [if_neg hse]
        simp only [ite_true]
        rw [getDefinitionStatus_eq tenantID jobDefID _ _ hfind', happst]
        simp [recordDefinitionSnapshot, hse, hcurv]
  have hstep :
      updateDefinitionStatusStep tenantID jobDefID u defs snaps =
        updateDefinitionChecked tenantID jobDefID u "" defs snaps := by
    unfold updateDefinitionStatusStep
    rw [hst]
  have hud :
      updateDefinition tenantID jobDefID u conns defs snaps =
        updateDefinitionStatusStep tenantID jobDefID u defs snaps := by
    unfold updateDefinition
    rcases hs : u.sourceConnectionID with _ | s
    · rcases hd : u.destinationConnectionID with _ | d2
      · rfl
      · dsimp only
        rw [hdst d2 hd]
    · dsimp only
      rw [hsrc s hs]
      rcases hd : u.destinationConnectionID with _ | d2
      · rfl
      · dsimp only
        rw [hdst d2 hd]
  obtain ⟨snaps', heq⟩ := hchecked
  rw [hud, hstep, heq]
  exact ⟨rfl, hfind'⟩

/-- C6: the validation request evaluates the resolved fields (current
persisted values overlaid by the client's partial update); when required
fields are missing it answers `{valid:false}` with exactly the collected
missing-field list and leaves the state untouched; a resolved connection
id that does not belong to the tenant (the repository tenancy check
failing with its not-found error) makes the request fail without updating
the row; and when validation and both tenancy checks pass the definition
is updated with status VALIDATING. -/
theorem c6_validate_definition_spec (tenantID jobDefID : String)
    (payload : UpdatePayload) (conns : List Connection) (st : DefState)
    (currentDef : JobDefinition)
    (hget : getJobDefinitionByID tenantID jobDefID st.defs = .ok currentDef) :
    (validateResolvedDefinition (resolveDefinition payload currentDef) ≠ [] →
      validateJobDefinitionHandler tenantID jobDefID payload conns st =
        (.invalid (validateResolvedDefinition (resolveDefinition payload currentDef)),
         st)) ∧
    (∀ msg, validateResolvedDefinition (resolveDefinition payload currentDef) = [] →
      validateTennantConnection tenantID
          (goTrim (goTrim (resolveDefinition payload currentDef).sourceConnectionID))
          conns = .error (.notFound msg) →
      validateJobDefinitionHandler tenantID jobDefID payload conns st =
        (.notFoundResp, st)) ∧
    (∀ msg, validateResolvedDefinition (resolveDefinition payload currentDef) = [] →
      validateTennantConnection tenantID
          (goTrim (goTrim (resolveDefinition payload currentDef).sourceConnectionID))
          conns = .ok () →
      validateTennantConnection tenantID
          (goTrim (goTrim (resolveDefinition payload currentDef).destinationConnectionID))
          conns = .error (.notFound msg) →
      validateJobDefinitionHandler tenantID jobDefID payload conns st =
        (.notFoundResp, st)) ∧
    (validateResolvedDefinition (resolveDefinition payload currentDef) = [] →
      validateTennantConnection tenantID
          (goTrim (goTrim (resolveDefinition payload currentDef).sourceConnectionID))
          conns = .ok () →
      validateTennantConnection tenantID
          (goTrim (goTrim (resolveDefinition payload currentDef).destinationConnectionID))
          conns = .ok () →
      ∃ d stOut, validateJobDefinitionHandler tenantID jobDefID payload conns st =
          (.valid d, stOut) ∧ d.status = "VALIDATING" ∧
        getDefinitionStatus tenantID jobDefID stOut.defs = .ok "VALIDATING") := by
  have hfind : st.defs.find? (defMatches tenantID jobDefID) = some currentDef :=
    (getJobDefinitionByID_ok_iff _ _ _ _).mp hget
  refine ⟨fun herr => ?_, fun msg herrs hsrc => ?_, fun msg herrs hsrc hdst => ?_,
          fun herrs hsrc hdst => ?_⟩
  · unfold validateJobDefinitionHandler
    rw [hget]
    dsimp only
    rw [if_pos herr]
  · unfold validateJobDefinitionHandler
    rw [hget]
    dsimp only
    rw [if_neg (by simp [herrs])]
    unfold updateDefinition
    dsimp only
    rw [hsrc]
    rfl
  · unfold validateJobDefinitionHandler
    rw [hget]
    dsimp only
    rw [if_neg (by simp [herrs])]
    unfold updateDefinition
    dsimp only
    rw [hsrc]
    dsimp only
    rw [hdst]
    rfl
  · have hmain := updateDefinition_status_some tenantID jobDefID
      { name := some (resolveDefinition payload currentDef).name,
        description := some (resolveDefinition payload currentDef).description,
        ast := some (resolveDefinition payload currentDef).ast,
        sourceConnectionID :=
          some (goTrim (resolveDefinition payload currentDef).sourceConnectionID),
        destinationConnectionID :=
          some (goTrim (resolveDefinition payload currentDef).destinationConnectionID),
        status := some "VALIDATING",
        progressSnapshot := payload.progressSnapshot }
      conns st.defs st.snaps currentDef "VALIDATING" hfind rfl (by decide) (by decide)
      (by decide) (by simp [DefinitionUpdate.hasSetClauses])
      (fun s hs => by rcases Option.some.inj hs with rfl; exact hsrc)
      (fun s hs => by rcases Option.some.inj hs with rfl; exact hdst)
    obtain ⟨herrNone, hfindAfter⟩ := hmain
    unfold validateJobDefinitionHandler
    rw [hget]
    dsimp only
    rw [if_neg (by simp [herrs])]
    rw [herrNone]
    dsimp only
    rw [(getJobDefinitionByID_ok_iff _ _ _ _).mpr hfindAfter]
    dsimp only
    refine ⟨_, _, rfl, ?_, ?_⟩
    · simp [applyDefinitionUpdate]
    · rw [getDefinitionStatus_eq _ _ _ _ hfindAfter]
      simp [applyDefinitionUpdate]

/-- C6 witness: a persisted definition with no AST fails validation with
exactly the collected list, leaving the store untouched. -/
theorem c6_validate_definition_spec_witness :
    validateJobDefinitionHandler "t1" "d1" {}  []
        { defs := [{ id := "d1", tenantID := "t1", name := "daily_sync",
                     description := "", ast := "", sourceConnectionID := "c1",
                     destinationConnectionID := "c2", status := "DRAFT",
                     progressSnapshot := "", deleted := false }],
          snaps := [] } =
      (.invalid ["ast is required"],
       { defs := [{ id := "d1", tenantID := "t1", name := "daily_sync",
                    description := "", ast := "", sourceConnectionID := "c1",
                    destinationConnectionID := "c2", status := "DRAFT",
                    progressSnapshot := "", deleted := false }],
         snaps := [] }) := by
  have h := (c6_validate_definition_spec "t1" "d1" {} []
    { defs := [{ id := "d1", tenantID := "t1", name := "daily_sync",
                 description := "", ast := "", sourceConnectionID := "c1",
                 destinationConnectionID := "c2", status := "DRAFT",
                 progressSnapshot := "", deleted := false }],
      snaps := [] }
    { id := "d1", tenantID := "t1", name := "daily_sync",
      description := "", ast := "", sourceConnectionID := "c1",
      destinationConnectionID := "c2", status := "DRAFT",
      progressSnapshot := "", deleted := false }
    (by decide)).1 (by decide)
  exact h.trans (by decide)

/-- C7: an autosave without an explicit status that carries at least one
field (and passes the handler's field checks) moves a READY definition to
DRAFT and leaves a DRAFT definition in DRAFT: in both cases the stored
status afterwards is DRAFT. -/
theorem c7_autosave_to_draft (tenantID jobDefID : String)
    (payload : UpdatePayload) (conns : List Connection) (st : DefState)
    (currentDef : JobDefinition)
    (hget : getJobDefinitionByID tenantID jobDefID st.defs = .ok currentDef)
    (hstatus : payload.status = none)
    (hchanges : payload.hasChanges = true)
    (hname : ∀ n, payload.name = some n → ¬ goTrim n = "")
    (hsrc : ∀ s, payload.sourceConnectionID = some s →
      validateTennantConnection tenantID (goTrim (goTrim s)) conns = .ok ())
    (hdst : ∀ s, payload.destinationConnectionID = some s →
      validateTennantConnection tenantID (goTrim (goTrim s)) conns = .ok ())
    (hcur : currentDef.status = "READY" ∨ currentDef.status = "DRAFT") :
    getDefinitionStatus tenantID jobDefID
      (autosaveJob tenantID jobDefID payload conns st).2.defs = .ok "DRAFT" := by
  have hfind : st.defs.find? (defMatches tenantID jobDefID) = some currentDef :=
    (getJobDefinitionByID_ok_iff _ _ _ _).mp hget
  have happly : getDefinitionStatus tenantID jobDefID
      (autosaveApply tenantID jobDefID payload currentDef conns st).2.defs =
      .ok "DRAFT" := by
    have hsrc' : ∀ s, payload.sourceConnectionID.map goTrim = some s →
        validateTennantConnection tenantID (goTrim s) conns = .ok () := by
      intro s hs
      obtain ⟨x, hx, rfl⟩ := Option.map_eq_some'.mp hs
      exact hsrc x hx
    have hdst' : ∀ s, payload.destinationConnectionID.map goTrim = some s →
        validateTennantConnection tenantID (goTrim s) conns = .ok () := by
      intro s hs
      obtain ⟨x, hx, rfl⟩ := Option.map_eq_some'.mp hs
      exact hdst x hx
    rcases hcur with hcur | hcur
    · -- READY: the handler injects status := DRAFT
      have hcond : (decide (currentDef.status = "READY") && payload.hasChanges) = true := by
        simp [hcur, hchanges]
      have hmain := updateDefinition_status_some tenantID jobDefID
        { name := payload.name.map goTrim,
          description := payload.description,
          ast := payload.ast,
          sourceConnectionID := payload.sourceConnectionID.map goTrim,
          destinationConnectionID := payload.destinationConnectionID.map goTrim,
          status := some "DRAFT",
          progressSnapshot := payload.progressSnapshot }
        conns st.defs st.snaps currentDef "DRAFT" hfind rfl (by decide) (by decide)
        (by decide) (by simp [DefinitionUpdate.hasSetClauses]) hsrc' hdst'
      obtain ⟨herrNone, hfindAfter⟩ := hmain
      unfold autosaveApply
      rw [hstatus]
      dsimp only
      rw [if_pos hcond, herrNone]
      dsimp only
      rw [(getJobDefinitionByID_ok_iff _ _ _ _).mpr hfindAfter]
      dsimp only
      rw [getDefinitionStatus_eq _ _ _ _ hfindAfter]
      simp [applyDefinitionUpdate]
    · -- DRAFT: no status override, the status column is untouched
      have hcond : ¬ ((decide (currentDef.status = "READY") && payload.hasChanges) = true) := by
        simp [hcur]
      have hset : (DefinitionUpdate.hasSetClauses
          { name := payload.name.map goTrim,
            description := payload.description,
            ast := payload.ast,
            sourceConnectionID := payload.sourceConnectionID.map goTrim,
            destinationConnectionID := payload.destinationConnectionID.map goTrim,
            status := none,
            progressSnapshot := payload.progressSnapshot }) = true := by
        simp only [UpdatePayload.hasChanges, hstatus, Option.isSome_none,
          Bool.or_false] at hchanges
        simp only [DefinitionUpdate.hasSetClauses, Option.isSome_map',
          Option.isSome_none, Bool.or_false]
        exact hchanges
      have hmain := updateDefinition_status_none tenantID jobDefID
        { name := payload.name.map goTrim,
          description := payload.description,
          ast := payload.ast,
          sourceConnectionID := payload.sourceConnectionID.map goTrim,
          destinationConnectionID := payload.destinationConnectionID.map goTrim,
          status := none,
          progressSnapshot := payload.progressSnapshot }
        conns st.defs st.snaps currentDef hfind rfl
        (by rw [hcur]; decide) hset hsrc' hdst'
      obtain ⟨herrNone, hfindAfter⟩ := hmain
      unfold autosaveApply
      rw [hstatus]
      dsimp only
      rw [if_neg hcond, herrNone]
      dsimp only
      rw [(getJobDefinitionByID_ok_iff _ _ _ _).mpr hfindAfter]
      dsimp only
      rw [getDefinitionStatus_eq _ _ _ _ hfindAfter]
      simp [applyDefinitionUpdate, hcur]
  unfold autosaveJob
  rw [hget]
  dsimp only
  rcases hn : payload.name with _ | n
  · exact happly
  · dsimp only
    rw [if_neg (hname n hn)]
    exact happly

/-- C7 witness: an autosave changing only the description moves a concrete
READY definition to DRAFT. -/
theorem c7_autosave_to_draft_witness :
    getDefinitionStatus "t1" "d1"
      (autosaveJob "t1" "d1" { description := some "new text" } []
        { defs := [{ id := "d1", tenantID := "t1", name := "daily_sync",
                     description := "", ast := "{}", sourceConnectionID := "c1",
                     destinationConnectionID := "c2", status := "READY",
                     progressSnapshot := "", deleted := false }],
          snaps := [] }).2.defs = .ok "DRAFT" :=
  c7_autosave_to_draft "t1" "d1" { description := some "new text" } []
    { defs := [{ id := "d1", tenantID := "t1", name := "daily_sync",
                 description := "", ast := "{}", sourceConnectionID := "c1",
                 destinationConnectionID := "c2", status := "READY",
                 progressSnapshot := "", deleted := false }],
      snaps := [] }
    { id := "d1", tenantID := "t1", name := "daily_sync",
      description := "", ast := "{}", sourceConnectionID := "c1",
      destinationConnectionID := "c2", status := "READY",
      progressSnapshot := "", deleted := false }
    (by decide) rfl (by decide)
    (fun n hn => by cases hn)
    (fun s hs => by cases hs)
    (fun s hs => by cases hs)
    (Or.inl rfl)

end Stratum
